import Mathlib

/-!
Verification of the stat-cards core of `consecure-client`
(`src/components/jobs/stat-cards.tsx`): the filter evaluator
(`matchesFilter`, `filterDrawings`), the aggregation calculator
(`calculateAggregation`) and the card/group configuration handlers
(`handleAddCard`, `handleRemoveCard`, `handleCreateGroup`).

JavaScript dynamic values are embedded as the sum type `Value`
(undefined, null, string, number, boolean), with numbers as rationals.
`Number(x)` coercion is embedded as `jsToNumber : Value → Option ℚ`,
where `none` plays the role of `NaN`; the string-to-number fragment
covers optional sign, decimal digits and a fractional part (the
decimal-literal fragment relevant to this component).
-/

namespace StatCards

/-- Column types, from `ColumnType` in `src/types/index.ts`. -/
inductive ColumnType
  | text
  | number
  | date
  | boolean
deriving DecidableEq, Repr

/-- A dynamic JavaScript value as stored in `Drawing.data`. -/
inductive Value
  | undefined
  | null
  | str (s : String)
  | num (q : ℚ)
  | bool (b : Bool)
deriving DecidableEq, Repr

/-- `DrawingColumn` (`src/types/index.ts`): the fields the stat-cards core reads. -/
structure DrawingColumn where
  id : String
  name : String
  type : ColumnType
deriving DecidableEq, Repr

/-- `Drawing` (`src/types/index.ts`): `id` and the `data` map keyed by column name. -/
structure Drawing where
  id : String
  data : List (String × Value)
deriving DecidableEq, Repr

/-- `drawing.data[name]`: JavaScript property access, `undefined` when the key is absent. -/
def Drawing.get (d : Drawing) (name : String) : Value :=
  match d.data.find? (fun p => p.1 == name) with
  | some p => p.2
  | none => .undefined

/-- Digit value of a decimal digit character. -/
def digitVal (c : Char) : ℕ := c.toNat - '0'.toNat

/-- Natural number denoted by a list of decimal digit characters. -/
def natOfDigits (cs : List Char) : ℕ := cs.foldl (fun a c => 10 * a + digitVal c) 0

/-- Parse an unsigned decimal literal (`"12"`, `"12.5"`, `".5"`, `"12."`);
`none` encodes `NaN`. -/
def parseUnsigned (cs : List Char) : Option ℚ :=
  let intPart := cs.takeWhile Char.isDigit
  let rest := cs.dropWhile Char.isDigit
  match rest with
  | [] => if intPart.isEmpty then none else some ((natOfDigits intPart : ℚ))
  | '.' :: frac =>
    if frac.all Char.isDigit && !(intPart.isEmpty && frac.isEmpty) then
      some ((natOfDigits intPart : ℚ) + (natOfDigits frac : ℚ) / ((10 : ℚ) ^ frac.length))
    else none
  | _ => none

/-- JavaScript `Number(s)` for a string: trims whitespace, `""` gives `0`,
optional sign then a decimal literal; anything else is `NaN` (`none`). -/
def parseNum (s : String) : Option ℚ :=
  let cs := ((s.data.dropWhile Char.isWhitespace).reverse.dropWhile Char.isWhitespace).reverse
  match cs with
  | [] => some 0
  | '-' :: rest => (parseUnsigned rest).map (fun q => -q)
  | '+' :: rest => parseUnsigned rest
  | _ => parseUnsigned cs

/-- JavaScript `Number(v)` coercion; `none` encodes `NaN`. -/
def jsToNumber : Value → Option ℚ
  | .undefined => none
  | .null => some 0
  | .str s => parseNum s
  | .num q => some q
  | .bool b => some (if b then 1 else 0)

/-- Rendering of a rational for `String(v)`; integers print as in JavaScript
(the non-integer branch is a placeholder rendering — no verified property
depends on it). -/
def jsNumToString (q : ℚ) : String :=
  if q.den = 1 then toString q.num
  else toString q.num ++ "/" ++ toString q.den

/-- JavaScript `String(v ?? '')` as used by `matchesFilter`. -/
def jsString : Value → String
  | .undefined => ""
  | .null => ""
  | .str s => s
  | .num q => jsNumToString q
  | .bool b => if b then "true" else "false"

/-- Is `needle` a prefix of the second list? -/
def isPrefixL : List Char → List Char → Bool
  | [], _ => true
  | _ :: _, [] => false
  | a :: as, b :: bs => a == b && isPrefixL as bs

/-- Does the second list contain `needle` as a contiguous sublist? -/
def containsL (needle : List Char) : List Char → Bool
  | [] => isPrefixL needle []
  | c :: rest => isPrefixL needle (c :: rest) || containsL needle rest

/-- JavaScript `hay.includes(needle)`. -/
def strIncludes (hay needle : String) : Bool := containsL needle.data hay.data

/-- Ordering comparison on coerced numbers: `a > b` is false when either side is `NaN`. -/
def jsGtB : Option ℚ → Option ℚ → Bool
  | some a, some b => decide (a > b)
  | _, _ => false

/-- `a < b` with `NaN` on either side giving false. -/
def jsLtB : Option ℚ → Option ℚ → Bool
  | some a, some b => decide (a < b)
  | _, _ => false

/-- `a >= b` with `NaN` on either side giving false. -/
def jsGeB : Option ℚ → Option ℚ → Bool
  | some a, some b => decide (a ≥ b)
  | _, _ => false

/-- `a <= b` with `NaN` on either side giving false. -/
def jsLeB : Option ℚ → Option ℚ → Bool
  | some a, some b => decide (a ≤ b)
  | _, _ => false

/-- `FilterOperator` enum (`stat-cards.tsx`). -/
inductive FilterOperator
  | EQUALS
  | NOT_EQUALS
  | CONTAINS
  | GREATER_THAN
  | LESS_THAN
  | GREATER_THAN_OR_EQUAL
  | LESS_THAN_OR_EQUAL
  | IS_TRUE
  | IS_FALSE
  | IS_EMPTY
  | IS_NOT_EMPTY
deriving DecidableEq, Repr

/-- `AggregationType` enum (`stat-cards.tsx`). -/
inductive AggregationType
  | COUNT
  | SUM
  | AVERAGE
  | MIN
  | MAX
  | COUNT_TRUE
  | COUNT_FALSE
deriving DecidableEq, Repr

/-- `FilterCondition` (`stat-cards.tsx`): `value?` is an optional raw string. -/
structure FilterCondition where
  columnId : String
  operator : FilterOperator
  value : Option String
deriving DecidableEq, Repr

/-- `matchesFilter(drawing, filter, columns)` from `stat-cards.tsx` lines 184-217. -/
def matchesFilter (drawing : Drawing) (filter : FilterCondition)
    (columns : List DrawingColumn) : Bool :=
  match columns.find? (fun c => c.id == filter.columnId) with
  | none => true
  | some column =>
    let value := drawing.get column.name
    let filterValue := filter.value.getD ""
    match filter.operator with
    | .EQUALS => (jsString value).toLower == filterValue.toLower
    | .NOT_EQUALS => (jsString value).toLower != filterValue.toLower
    | .CONTAINS => strIncludes (jsString value).toLower filterValue.toLower
    | .GREATER_THAN => jsGtB (jsToNumber value) (parseNum filterValue)
    | .LESS_THAN => jsLtB (jsToNumber value) (parseNum filterValue)
    | .GREATER_THAN_OR_EQUAL => jsGeB (jsToNumber value) (parseNum filterValue)
    | .LESS_THAN_OR_EQUAL => jsLeB (jsToNumber value) (parseNum filterValue)
    | .IS_TRUE => value == .bool true
    | .IS_FALSE => value == .bool false
    | .IS_EMPTY => value == .undefined || value == .null || value == .str ""
    | .IS_NOT_EMPTY => value != .undefined && value != .null && value != .str ""

/-- `filterDrawings(drawings, filters, columns)` from `stat-cards.tsx` lines 220-223. -/
def filterDrawings (drawings : List Drawing) (filters : List FilterCondition)
    (columns : List DrawingColumn) : List Drawing :=
  if filters.isEmpty then drawings
  else drawings.filter (fun drawing => filters.all (fun filter => matchesFilter drawing filter columns))

/-- The retained values of `calculateAggregation` (lines 233-236): filter the
drawings, read the card column, keep non-empty values
(`v !== undefined && v !== null && v !== ''`). -/
def retainedValues (drawings : List Drawing) (column : DrawingColumn)
    (filters : Option (List FilterCondition)) (columns : List DrawingColumn) : List Value :=
  ((filterDrawings drawings (filters.getD []) columns).map (fun d => d.get column.name)).filter
    (fun v => v != .undefined && v != .null && v != .str "")

/-- JavaScript `q.toFixed(2)` on an exact rational: round to two decimal
places (half away from zero) and print with exactly two fractional digits. -/
def toFixed2 (q : ℚ) : String :=
  let scaled : ℤ := if 0 ≤ q then Rat.floor (q * 100 + 1 / 2) else -Rat.floor (-q * 100 + 1 / 2)
  let sign := if scaled < 0 then "-" else ""
  let n := scaled.natAbs
  sign ++ toString (n / 100) ++ "." ++ (if n % 100 < 10 then "0" else "") ++ toString (n % 100)

/-- Result of an aggregation: the code returns `string | number`. -/
inductive AggResult
  | num (q : ℚ)
  | str (s : String)
deriving DecidableEq, Repr

/-- `calculateAggregation(drawings, column, aggregation, filters, columns)`
from `stat-cards.tsx` lines 226-265.  `Number(v) || 0` sends `NaN` (and `0`)
to `0`, i.e. `(jsToNumber v).getD 0`. -/
def calculateAggregation (drawings : List Drawing) (column : DrawingColumn)
    (aggregation : AggregationType) (filters : Option (List FilterCondition))
    (columns : List DrawingColumn) : AggResult :=
  let values := retainedValues drawings column filters columns
  match aggregation with
  | .COUNT => .num values.length
  | .SUM =>
    let sum := values.foldl (fun acc v => acc + ((jsToNumber v).getD 0)) 0
    if sum.den = 1 then .num sum else .str (toFixed2 sum)
  | .AVERAGE =>
    if values.length = 0 then .num 0
    else
      let avg := (values.foldl (fun acc v => acc + ((jsToNumber v).getD 0)) 0) / (values.length : ℚ)
      .str (toFixed2 avg)
  | .MIN =>
    let nums := values.filterMap jsToNumber
    match nums with
    | [] => .str "-"
    | n :: rest => .num (rest.foldl min n)
  | .MAX =>
    let nums := values.filterMap jsToNumber
    match nums with
    | [] => .str "-"
    | n :: rest => .num (rest.foldl max n)
  | .COUNT_TRUE => .num (values.filter (fun v => v == .bool true)).length
  | .COUNT_FALSE => .num (values.filter (fun v => v == .bool false)).length

/-- `StatCardConfig` (`stat-cards.tsx`): a saved card. -/
structure StatCardConfig where
  id : String
  title : String
  columnId : String
  aggregation : AggregationType
  filters : Option (List FilterCondition)
deriving DecidableEq, Repr

/-- `StatCardGroup` (`stat-cards.tsx`): a named cluster of card ids. -/
structure StatCardGroup where
  id : String
  name : String
  cardIds : List String
deriving DecidableEq, Repr

/-- The persisted configuration state of `StatCardConfigurator`:
the `cards` and `groups` lists. -/
structure ConfigState where
  cards : List StatCardConfig
  groups : List StatCardGroup
deriving DecidableEq, Repr

/-- `aggregationLabels` table (`stat-cards.tsx` lines 73-81). -/
def aggregationLabels : AggregationType → String
  | .COUNT => "Count"
  | .SUM => "Sum"
  | .AVERAGE => "Avg"
  | .MIN => "Min"
  | .MAX => "Max"
  | .COUNT_TRUE => "✓"
  | .COUNT_FALSE => "✗"

/-- The default-title computation of `handleAddCard` (lines 700-709): the base
title is `"{label} {column.name}"`, and when filters are present it is
overwritten with `"{label} ({comma-joined filter column names})"`. -/
def defaultCardTitle (selectedAggregation : AggregationType) (column : DrawingColumn)
    (filters : List FilterCondition) (columns : List DrawingColumn) : String :=
  let base := aggregationLabels selectedAggregation ++ " " ++ column.name
  if filters.length > 0 then
    let filterDesc := String.intercalate ","
      (filters.map (fun f =>
        match columns.find? (fun c => c.id == f.columnId) with
        | some col => col.name
        | none => ""))
    aggregationLabels selectedAggregation ++ " (" ++ filterDesc ++ ")"
  else base

/-- `handleAddCard` (lines 695-723) as a function of the configuration state
and the dialog inputs; `freshId` stands for `crypto.randomUUID()`.
`cardTitle || defaultTitle` takes the default exactly when the user title is
the empty string. -/
def handleAddCard (s : ConfigState) (freshId : String) (selectedColumn : String)
    (selectedAggregation : AggregationType) (filters : List FilterCondition)
    (cardTitle : String) (columns : List DrawingColumn) : ConfigState :=
  if selectedColumn == "" then s
  else
    match columns.find? (fun c => c.id == selectedColumn) with
    | none => s
    | some column =>
      let defaultTitle := defaultCardTitle selectedAggregation column filters columns
      let newCard : StatCardConfig :=
        { id := freshId
          title := if cardTitle == "" then defaultTitle else cardTitle
          columnId := selectedColumn
          aggregation := selectedAggregation
          filters := if filters.length > 0 then some filters else none }
      { s with cards := s.cards ++ [newCard] }

/-- `handleRemoveCard` (lines 725-733): drop the card from `cards`, strip its
id from every group, and keep only groups with `cardIds.length > 0`. -/
def handleRemoveCard (s : ConfigState) (cardId : String) : ConfigState :=
  { cards := s.cards.filter (fun c => c.id != cardId)
    groups :=
      (s.groups.map (fun g => { g with cardIds := g.cardIds.filter (fun i => i != cardId) })).filter
        (fun g => g.cardIds.length > 0) }

/-- `handleCreateGroup` (lines 735-747): reject when the name is empty or
fewer than two cards are selected; otherwise append a fresh group.
`freshId` stands for `crypto.randomUUID()`. -/
def handleCreateGroup (s : ConfigState) (freshId : String) (groupName : String)
    (selectedCardsForGroup : List String) : ConfigState :=
  if groupName == "" || selectedCardsForGroup.length < 2 then s
  else
    { s with
      groups := s.groups ++ [{ id := freshId, name := groupName, cardIds := selectedCardsForGroup }] }

/-- `handleRemoveGroup` (lines 749-751). -/
def handleRemoveGroup (s : ConfigState) (groupId : String) : ConfigState :=
  { s with groups := s.groups.filter (fun g => g.id != groupId) }

/-- Sum of the numeric coercions (`NaN` as `0`) of a list of values; the fold
computed by the SUM and AVERAGE branches. -/
def sumOfValues (l : List Value) : ℚ := (l.map (fun v => (jsToNumber v).getD 0)).sum

/-! ## Helper lemmas -/

/-- A condition whose column id resolves to no column evaluates to true. -/
theorem matchesFilter_of_find_none (d : Drawing) (f : FilterCondition)
    (columns : List DrawingColumn)
    (h : columns.find? (fun c => c.id == f.columnId) = none) :
    matchesFilter d f columns = true := by
  unfold matchesFilter
  rw [h]

/-- All four JavaScript ordering comparisons are false when either side is `NaN`. -/
theorem jsOrd_none (a b : Option ℚ) (h : a = none ∨ b = none) :
    jsGtB a b = false ∧ jsLtB a b = false ∧ jsGeB a b = false ∧ jsLeB a b = false := by
  cases a <;> cases b <;> simp_all [jsGtB, jsLtB, jsGeB, jsLeB]

/-- The explicit non-emptiness conjunction is the negation of the emptiness disjunction. -/
theorem notEmptyConj_eq_not_emptyDisj (w : Value) :
    (w != Value.undefined && w != Value.null && w != Value.str "") =
      !(w == Value.undefined || w == Value.null || w == Value.str "") := by
  cases w <;> simp only [Bool.not_or] <;> rfl

/-- The fold used by the SUM and AVERAGE branches computes `sumOfValues`. -/
theorem foldl_add_getD (l : List Value) (a : ℚ) :
    l.foldl (fun acc v => acc + ((jsToNumber v).getD 0)) a = a + sumOfValues l := by
  induction l generalizing a with
  | nil => simp [sumOfValues]
  | cons v t ih =>
    simp only [List.foldl_cons, ih, sumOfValues, List.map_cons, List.sum_cons]
    ring

/-- `sumOfValues` distributes over list append. -/
theorem sumOfValues_append (a b : List Value) :
    sumOfValues (a ++ b) = sumOfValues a + sumOfValues b := by
  simp [sumOfValues]

/-- `sumOfValues` on a cons adds the head value's coercion. -/
theorem sumOfValues_cons (v : Value) (l : List Value) :
    sumOfValues (v :: l) = (jsToNumber v).getD 0 + sumOfValues l := by
  simp [sumOfValues]

/-- With no filters, the retained values of an appended record list split. -/
theorem retainedValues_append (l1 l2 : List Drawing) (col : DrawingColumn)
    (cols : List DrawingColumn) :
    retainedValues (l1 ++ l2) col none cols =
      retainedValues l1 col none cols ++ retainedValues l2 col none cols := by
  simp [retainedValues, filterDrawings, List.map_append, List.filter_append]

/-- A leading record whose value passes the non-empty test contributes its value. -/
theorem retainedValues_cons_retained (d : Drawing) (post : List Drawing) (col : DrawingColumn)
    (cols : List DrawingColumn)
    (hb : (d.get col.name != Value.undefined && d.get col.name != Value.null &&
           d.get col.name != Value.str "") = true) :
    retainedValues (d :: post) col none cols =
      d.get col.name :: retainedValues post col none cols := by
  simp [retainedValues, filterDrawings, List.filter_cons, hb]

/-! ## Claims -/

/-- C1 (counterexample): removing card "a", a member of the 2-member group "g1",
does NOT delete the group; `handleRemoveCard` keeps the group with the single
surviving member "b", so the claimed ≥2-member invariant fails. -/
theorem C1_counterexample :
    (handleRemoveCard ⟨[⟨"a", "A", "c1", .COUNT, none⟩, ⟨"b", "B", "c1", .COUNT, none⟩],
        [⟨"g1", "G", ["a", "b"]⟩]⟩ "a").groups = [⟨"g1", "G", ["b"]⟩] ∧
    ¬ (∀ g ∈ (handleRemoveCard ⟨[⟨"a", "A", "c1", .COUNT, none⟩, ⟨"b", "B", "c1", .COUNT, none⟩],
        [⟨"g1", "G", ["a", "b"]⟩]⟩ "a").groups, 2 ≤ g.cardIds.length) := by decide

/-- C1 (amended): `handleRemoveCard` removes the card from the card list and
from every group's `cardIds`, and deletes only the groups whose `cardIds`
became empty: every surviving group no longer contains the removed id and has
at least 1 (not necessarily 2) members, and every group retaining at least one
other member survives with the id stripped. -/
theorem C1_removeCard_prunes_only_empty_groups (s : ConfigState) (cardId : String) :
    (handleRemoveCard s cardId).cards = s.cards.filter (fun c => c.id != cardId) ∧
    (∀ g ∈ (handleRemoveCard s cardId).groups, cardId ∉ g.cardIds ∧ 1 ≤ g.cardIds.length) ∧
    (∀ g ∈ s.groups, g.cardIds.filter (fun i => i != cardId) ≠ [] →
      ({ g with cardIds := g.cardIds.filter (fun i => i != cardId) } : StatCardGroup) ∈
        (handleRemoveCard s cardId).groups) := by
  refine ⟨rfl, ?_, ?_⟩
  · intro g hg
    simp only [handleRemoveCard] at hg
    rw [List.mem_filter] at hg
    obtain ⟨hmem, hlen⟩ := hg
    rw [List.mem_map] at hmem
    obtain ⟨g0, hg0, rfl⟩ := hmem
    refine ⟨?_, ?_⟩
    · intro hmemid
      simp only at hmemid
      rw [List.mem_filter] at hmemid
      simp at hmemid
    · simp only [decide_eq_true_eq, gt_iff_lt] at hlen
      exact hlen
  · intro g hg hne
    simp only [handleRemoveCard]
    rw [List.mem_filter]
    refine ⟨List.mem_map_of_mem _ hg, ?_⟩
    simp only [decide_eq_true_eq, gt_iff_lt]
    exact List.length_pos.mpr hne

/-- C1 (witness): in the 2-member-group state, the group survives card "a"'s
removal as a singleton group containing only "b". -/
theorem C1_witness :
    (⟨"g1", "G", ["b"]⟩ : StatCardGroup) ∈
      (handleRemoveCard ⟨[⟨"a", "A", "c1", .COUNT, none⟩, ⟨"b", "B", "c1", .COUNT, none⟩],
        [⟨"g1", "G", ["a", "b"]⟩]⟩ "a").groups := by
  have h := (C1_removeCard_prunes_only_empty_groups
    ⟨[⟨"a", "A", "c1", .COUNT, none⟩, ⟨"b", "B", "c1", .COUNT, none⟩],
      [⟨"g1", "G", ["a", "b"]⟩]⟩ "a").2.2 ⟨"g1", "G", ["a", "b"]⟩ (by decide) (by decide)
  exact h

/-- C2 (counterexample): card "a" is already a member of group "g1", yet
`handleCreateGroup` with name "Totals" and ids ["a", "b"] mutates the state
(it appends the new group) instead of rejecting. -/
theorem C2_counterexample :
    (∃ g ∈ (⟨[⟨"a", "A", "c1", .COUNT, none⟩, ⟨"b", "B", "c1", .COUNT, none⟩,
        ⟨"c", "C", "c1", .COUNT, none⟩], [⟨"g1", "G", ["a", "c"]⟩]⟩ : ConfigState).groups,
      "a" ∈ g.cardIds) ∧
    handleCreateGroup ⟨[⟨"a", "A", "c1", .COUNT, none⟩, ⟨"b", "B", "c1", .COUNT, none⟩,
        ⟨"c", "C", "c1", .COUNT, none⟩], [⟨"g1", "G", ["a", "c"]⟩]⟩ "g2" "Totals" ["a", "b"]
      ≠ ⟨[⟨"a", "A", "c1", .COUNT, none⟩, ⟨"b", "B", "c1", .COUNT, none⟩,
        ⟨"c", "C", "c1", .COUNT, none⟩], [⟨"g1", "G", ["a", "c"]⟩]⟩ := by decide

/-- C2 (amended): `handleCreateGroup` rejects without mutation exactly when the
name is empty or fewer than 2 card ids are selected; with a non-empty name and
≥2 ids it appends the new group unconditionally — it performs no check that
the referenced ids are currently ungrouped (that exclusivity is enforced only
by the selection UI, which disables grouped cards). -/
theorem C2_createGroup_guards (s : ConfigState) (freshId groupName : String)
    (cardIds : List String) :
    ((groupName = "" ∨ cardIds.length < 2) → handleCreateGroup s freshId groupName cardIds = s) ∧
    (groupName ≠ "" → 2 ≤ cardIds.length →
      handleCreateGroup s freshId groupName cardIds =
        { s with groups := s.groups ++ [⟨freshId, groupName, cardIds⟩] }) := by
  constructor
  · intro h
    unfold handleCreateGroup
    rcases h with h | h
    · simp [h]
    · simp [h]
  · intro h1 h2
    unfold handleCreateGroup
    have hc : (groupName == "" || decide (cardIds.length < 2)) = false := by
      simp [h1]
      omega
    simp [hc]

/-- C2 (witness): with an empty name the state is unchanged; with name "T" and
two ids the group is appended. -/
theorem C2_witness :
    handleCreateGroup ⟨[], []⟩ "gX" "" ["a", "b"] = ⟨[], []⟩ ∧
    handleCreateGroup ⟨[], []⟩ "gX" "T" ["a", "b"] = ⟨[], [⟨"gX", "T", ["a", "b"]⟩]⟩ := by
  constructor
  · exact (C2_createGroup_guards ⟨[], []⟩ "gX" "" ["a", "b"]).1 (Or.inl rfl)
  · have h := (C2_createGroup_guards ⟨[], []⟩ "gX" "T" ["a", "b"]).2 (by decide) (by decide)
    exact h

/-- C3 (counterexample): adding a card on column "qty" (id "c1") with a filter
on column "flt" and no user title produces the title "Sum (flt)": the column
name is replaced by the parenthesized filter list, not extended — "qty" does
not occur in the title at all. -/
theorem C3_counterexample :
    ((handleAddCard ⟨[], []⟩ "id1" "c1" .SUM [⟨"c2", .EQUALS, some "x"⟩] ""
        [⟨"c1", "qty", .number⟩, ⟨"c2", "flt", .text⟩]).cards.map (fun c => c.title))
      = ["Sum (flt)"] ∧
    strIncludes "Sum (flt)" "qty" = false := by decide

/-- C3 (amended): with no user title, the appended card's default title is
"{AggregationLabel} {ColumnName}" when no filters are present; when filters
are present it is "{AggregationLabel} ({comma-joined filter column names})" —
the aggregation label followed by the parenthesized filter-column list, the
card column's name being dropped. -/
theorem C3_default_title (s : ConfigState) (freshId selectedColumn : String)
    (agg : AggregationType) (filters : List FilterCondition) (columns : List DrawingColumn)
    (column : DrawingColumn)
    (hcol : selectedColumn ≠ "")
    (hfind : columns.find? (fun c => c.id == selectedColumn) = some column) :
    (filters = [] →
      (handleAddCard s freshId selectedColumn agg filters "" columns).cards =
        s.cards ++ [⟨freshId, aggregationLabels agg ++ " " ++ column.name,
          selectedColumn, agg, none⟩]) ∧
    (filters ≠ [] →
      (handleAddCard s freshId selectedColumn agg filters "" columns).cards =
        s.cards ++ [⟨freshId,
          aggregationLabels agg ++ " (" ++ String.intercalate ","
            (filters.map (fun f =>
              match columns.find? (fun c => c.id == f.columnId) with
              | some col => col.name
              | none => "")) ++ ")",
          selectedColumn, agg, some filters⟩]) := by
  have hbeq : (selectedColumn == "") = false := by simp [hcol]
  constructor
  · intro hf
    subst hf
    simp [handleAddCard, hbeq, hfind, defaultCardTitle]
  · intro hf
    have hlen : 0 < filters.length := List.length_pos.mpr hf
    simp only [handleAddCard, hbeq, Bool.false_eq_true, if_false, hfind]
    simp [defaultCardTitle, hlen, Nat.pos_iff_ne_zero]

/-- C3 (witness): with no filters the default title is "Sum qty". -/
theorem C3_witness :
    (handleAddCard ⟨[], []⟩ "id1" "c1" .SUM [] ""
        [⟨"c1", "qty", .number⟩]).cards =
      [⟨"id1", "Sum qty", "c1", .SUM, none⟩] := by
  have h := (C3_default_title ⟨[], []⟩ "id1" "c1" .SUM [] [⟨"c1", "qty", .number⟩]
    ⟨"c1", "qty", .number⟩ (by decide) (by decide)).1 rfl
  exact h

/-- C4: for a condition on a resolvable column with a GREATER_THAN-family
operator, if either the record value or the stored filter value coerces to
`NaN` (`none`), the condition evaluates to false — in particular a record with
a non-numeric value satisfies neither a greater-than nor a less-than
condition. -/
theorem C4_ordering_nan_false (d : Drawing) (f : FilterCondition) (columns : List DrawingColumn)
    (column : DrawingColumn)
    (hfind : columns.find? (fun c => c.id == f.columnId) = some column)
    (hop : f.operator = .GREATER_THAN ∨ f.operator = .LESS_THAN ∨
           f.operator = .GREATER_THAN_OR_EQUAL ∨ f.operator = .LESS_THAN_OR_EQUAL)
    (hnan : jsToNumber (d.get column.name) = none ∨ parseNum (f.value.getD "") = none) :
    matchesFilter d f columns = false := by
  have h := jsOrd_none (jsToNumber (d.get column.name)) (parseNum (f.value.getD "")) hnan
  unfold matchesFilter
  rw [hfind]
  rcases hop with h1 | h1 | h1 | h1 <;> rw [h1] <;>
    simp only [h.1, h.2.1, h.2.2.1, h.2.2.2]

/-- C4 (witness): the non-numeric value "abc" does not satisfy
GREATER_THAN "5" on a NUMBER column. -/
theorem C4_witness :
    matchesFilter ⟨"d1", [("n", .str "abc")]⟩ ⟨"c1", .GREATER_THAN, some "5"⟩
      [⟨"c1", "n", .number⟩] = false := by
  have h := C4_ordering_nan_false ⟨"d1", [("n", .str "abc")]⟩ ⟨"c1", .GREATER_THAN, some "5"⟩
    [⟨"c1", "n", .number⟩] ⟨"c1", "n", .number⟩ (by decide) (Or.inl rfl) (Or.inl (by decide))
  exact h

/-- C5: a record whose value is retained (non-empty) but coerces to `NaN`
contributes zero to SUM (removing it leaves SUM unchanged), is dropped
entirely by MIN and MAX (removing it leaves them unchanged), while AVERAGE
counts it in the divisor but adds nothing to the numerator; and when no
numeric-coercible values remain, MIN and MAX return the string sentinel "-". -/
theorem C5_sum_coerces_min_max_drop (pre post : List Drawing) (d : Drawing)
    (col : DrawingColumn) (cols : List DrawingColumn)
    (hne : d.get col.name ≠ .undefined ∧ d.get col.name ≠ .null ∧ d.get col.name ≠ .str "")
    (hnan : jsToNumber (d.get col.name) = none) :
    calculateAggregation (pre ++ d :: post) col .SUM none cols
      = calculateAggregation (pre ++ post) col .SUM none cols ∧
    calculateAggregation (pre ++ d :: post) col .MIN none cols
      = calculateAggregation (pre ++ post) col .MIN none cols ∧
    calculateAggregation (pre ++ d :: post) col .MAX none cols
      = calculateAggregation (pre ++ post) col .MAX none cols ∧
    calculateAggregation (pre ++ d :: post) col .AVERAGE none cols
      = .str (toFixed2 (sumOfValues (retainedValues (pre ++ post) col none cols)
          / (((retainedValues (pre ++ post) col none cols).length : ℚ) + 1))) ∧
    ((retainedValues (pre ++ post) col none cols).filterMap jsToNumber = [] →
      calculateAggregation (pre ++ d :: post) col .MIN none cols = .str "-" ∧
      calculateAggregation (pre ++ d :: post) col .MAX none cols = .str "-") := by
  have hb : (d.get col.name != Value.undefined && d.get col.name != Value.null &&
      d.get col.name != Value.str "") = true := by
    simp only [Bool.and_eq_true, bne_iff_ne, ne_eq]
    exact ⟨⟨hne.1, hne.2.1⟩, hne.2.2⟩
  have key : retainedValues (pre ++ d :: post) col none cols
      = retainedValues pre col none cols ++ d.get col.name :: retainedValues post col none cols := by
    rw [retainedValues_append, retainedValues_cons_retained _ _ _ _ hb]
  have key2 : retainedValues (pre ++ post) col none cols
      = retainedValues pre col none cols ++ retainedValues post col none cols :=
    retainedValues_append pre post col cols
  have hsum : sumOfValues (retainedValues (pre ++ d :: post) col none cols)
      = sumOfValues (retainedValues (pre ++ post) col none cols) := by
    rw [key, key2, sumOfValues_append, sumOfValues_cons, sumOfValues_append, hnan]
    simp
  have hnums : (retainedValues (pre ++ d :: post) col none cols).filterMap jsToNumber
      = (retainedValues (pre ++ post) col none cols).filterMap jsToNumber := by
    rw [key, key2]
    simp [List.filterMap_append, List.filterMap_cons, hnan]
  have hlen : (retainedValues (pre ++ d :: post) col none cols).length
      = (retainedValues (pre ++ post) col none cols).length + 1 := by
    rw [key, key2]
    simp [List.length_append]
    omega
  have hmin : calculateAggregation (pre ++ d :: post) col .MIN none cols
      = calculateAggregation (pre ++ post) col .MIN none cols := by
    simp only [calculateAggregation, hnums]
  have hmax : calculateAggregation (pre ++ d :: post) col .MAX none cols
      = calculateAggregation (pre ++ post) col .MAX none cols := by
    simp only [calculateAggregation, hnums]
  refine ⟨?_, hmin, hmax, ?_, ?_⟩
  · simp only [calculateAggregation, foldl_add_getD, zero_add, hsum]
  · simp only [calculateAggregation, foldl_add_getD, zero_add, hsum, hlen]
    rw [if_neg (Nat.succ_ne_zero _)]
    push_cast
    ring_nf
  · intro h
    constructor
    · rw [hmin]
      simp only [calculateAggregation, h]
    · rw [hmax]
      simp only [calculateAggregation, h]

/-- C5 (witness): prepending a record with the non-numeric value "abc" leaves
the SUM over a NUMBER column unchanged. -/
theorem C5_witness :
    calculateAggregation [⟨"dx", [("n", .str "abc")]⟩, ⟨"d1", [("n", .num 5)]⟩]
      ⟨"c1", "n", .number⟩ .SUM none [⟨"c1", "n", .number⟩]
    = calculateAggregation [⟨"d1", [("n", .num 5)]⟩]
      ⟨"c1", "n", .number⟩ .SUM none [⟨"c1", "n", .number⟩] := by
  have h := (C5_sum_coerces_min_max_drop [] [⟨"d1", [("n", .num 5)]⟩]
    ⟨"dx", [("n", .str "abc")]⟩ ⟨"c1", "n", .number⟩ [⟨"c1", "n", .number⟩]
    (by decide) (by decide)).1
  exact h

/-- C6: a condition whose columnId matches no column evaluates to true
(fail-open) for every record; inserting such a condition anywhere in a filter
list does not change `filterDrawings`; and with only such conditions,
`filterDrawings` returns its input unchanged. -/
theorem C6_dangling_column_fails_open (ds : List Drawing) (f : FilterCondition)
    (fs1 fs2 : List FilterCondition)
    (filters : List FilterCondition) (columns : List DrawingColumn)
    (hf : columns.find? (fun c => c.id == f.columnId) = none)
    (hall : ∀ g ∈ filters, columns.find? (fun c => c.id == g.columnId) = none) :
    (∀ d : Drawing, matchesFilter d f columns = true) ∧
    filterDrawings ds (fs1 ++ f :: fs2) columns = filterDrawings ds (fs1 ++ fs2) columns ∧
    filterDrawings ds filters columns = ds := by
  refine ⟨fun d => matchesFilter_of_find_none d f columns hf, ?_, ?_⟩
  · unfold filterDrawings
    have hne : (fs1 ++ f :: fs2).isEmpty = false := by cases fs1 <;> simp
    by_cases h12 : (fs1 ++ fs2).isEmpty
    · rcases List.append_eq_nil.mp (List.isEmpty_iff.mp h12) with ⟨h1, h2⟩
      subst h1; subst h2
      simp [matchesFilter_of_find_none _ f columns hf]
    · simp only [hne, Bool.false_eq_true, if_false, if_neg h12]
      apply List.filter_congr
      intro d _
      simp [List.all_append, matchesFilter_of_find_none d f columns hf]
  · unfold filterDrawings
    rcases hfe : filters with _ | ⟨g, gs⟩
    · simp
    · simp only [List.isEmpty_cons, Bool.false_eq_true, if_false]
      apply List.filter_eq_self.mpr
      intro d _
      rw [List.all_eq_true]
      intro g2 hg2
      exact matchesFilter_of_find_none d g2 columns (hall g2 (hfe ▸ hg2))

/-- C6 (witness): a filter list consisting only of a condition on the
non-existent column id "gone" leaves the record list unchanged. -/
theorem C6_witness :
    filterDrawings [⟨"d1", [("n", .num 5)]⟩] [⟨"gone", .EQUALS, some "5"⟩]
      [⟨"c1", "n", .number⟩] = [⟨"d1", [("n", .num 5)]⟩] := by
  have h := (C6_dangling_column_fails_open [⟨"d1", [("n", .num 5)]⟩]
    ⟨"gone", .EQUALS, some "5"⟩ [] [] [⟨"gone", .EQUALS, some "5"⟩]
    [⟨"c1", "n", .number⟩] (by decide) (by decide)).2.2
  exact h

/-- C7: AVERAGE returns the number 0 when no values are retained (the division
is guarded, never reaching the quotient), otherwise the string
`toFixed2 (sum / length)`; on records `[{n:5},{n:10},{n:""}]` it yields
"7.50". -/
theorem C7_average_guarded (ds : List Drawing) (col : DrawingColumn)
    (cols : List DrawingColumn) (fo : Option (List FilterCondition)) :
    (retainedValues ds col fo cols = [] →
      calculateAggregation ds col .AVERAGE fo cols = .num 0) ∧
    (∀ v vs, retainedValues ds col fo cols = v :: vs →
      calculateAggregation ds col .AVERAGE fo cols =
        .str (toFixed2 (sumOfValues (v :: vs) / ((v :: vs).length : ℚ)))) ∧
    calculateAggregation
      [⟨"d1", [("n", .num 5)]⟩, ⟨"d2", [("n", .num 10)]⟩, ⟨"d3", [("n", .str "")]⟩]
      ⟨"c1", "n", .number⟩ .AVERAGE none [⟨"c1", "n", .number⟩] = .str "7.50" := by
  refine ⟨?_, ?_, ?_⟩
  · intro h
    simp [calculateAggregation, h]
  · intro v vs h
    simp only [calculateAggregation, h, foldl_add_getD, zero_add, List.length_cons]
    rw [if_neg (Nat.succ_ne_zero _)]
  · have h : retainedValues
        [⟨"d1", [("n", .num 5)]⟩, ⟨"d2", [("n", .num 10)]⟩, ⟨"d3", [("n", .str "")]⟩]
        ⟨"c1", "n", .number⟩ none [⟨"c1", "n", .number⟩] = [.num 5, .num 10] := by decide
    simp only [calculateAggregation, h, List.foldl_cons, List.foldl_nil, jsToNumber,
      Option.getD, List.length_cons, List.length_nil]
    norm_num [toFixed2, Rat.floor_def']
    rfl

/-- C7 (witness): on an empty record list AVERAGE is the number 0, not NaN. -/
theorem C7_witness :
    calculateAggregation [] ⟨"c1", "n", .number⟩ .AVERAGE none [⟨"c1", "n", .number⟩]
      = .num 0 := by
  have h := (C7_average_guarded [] ⟨"c1", "n", .number⟩ [⟨"c1", "n", .number⟩] none).1
    (by decide)
  exact h

/-- C8: on a resolvable column, IS_TRUE holds exactly when the record value is
the boolean literal `true` and IS_FALSE exactly when it is the literal
`false`; the string "true" never satisfies IS_TRUE; and COUNT_TRUE /
COUNT_FALSE count the retained values by the same strict literal equality. -/
theorem C8_strict_boolean (d : Drawing) (f : FilterCondition) (columns : List DrawingColumn)
    (column : DrawingColumn) (ds : List Drawing) (col : DrawingColumn)
    (fo : Option (List FilterCondition))
    (hfind : columns.find? (fun c => c.id == f.columnId) = some column) :
    (f.operator = .IS_TRUE → matchesFilter d f columns = (d.get column.name == Value.bool true)) ∧
    (f.operator = .IS_FALSE → matchesFilter d f columns = (d.get column.name == Value.bool false)) ∧
    (d.get column.name = .str "true" → f.operator = .IS_TRUE → matchesFilter d f columns = false) ∧
    calculateAggregation ds col .COUNT_TRUE fo columns =
      .num (List.count (Value.bool true) (retainedValues ds col fo columns)) ∧
    calculateAggregation ds col .COUNT_FALSE fo columns =
      .num (List.count (Value.bool false) (retainedValues ds col fo columns)) := by
  have h1 : f.operator = .IS_TRUE →
      matchesFilter d f columns = (d.get column.name == Value.bool true) := by
    intro hop
    unfold matchesFilter
    rw [hfind, hop]
  refine ⟨h1, ?_, ?_, ?_, ?_⟩
  · intro hop
    unfold matchesFilter
    rw [hfind, hop]
  · intro hval hop
    rw [h1 hop, hval]
    rfl
  · simp [calculateAggregation, List.count_eq_countP, List.countP_eq_length_filter]
  · simp [calculateAggregation, List.count_eq_countP, List.countP_eq_length_filter]

/-- C8 (witness): the string "true" does not satisfy IS_TRUE on a BOOLEAN
column. -/
theorem C8_witness :
    matchesFilter ⟨"d1", [("b", .str "true")]⟩ ⟨"cb", .IS_TRUE, none⟩
      [⟨"cb", "b", .boolean⟩] = false := by
  have h := (C8_strict_boolean ⟨"d1", [("b", .str "true")]⟩ ⟨"cb", .IS_TRUE, none⟩
    [⟨"cb", "b", .boolean⟩] ⟨"cb", "b", .boolean⟩ [] ⟨"cb", "b", .boolean⟩ none
    (by decide)).2.2.1 (by decide) rfl
  exact h

/-- C9: `filterDrawings` is idempotent (applying it twice with the same
filters and columns equals applying it once) and its output is a sublist of
its input: records are never added, duplicated or reordered. -/
theorem C9_filter_idempotent_sublist (ds : List Drawing) (fs : List FilterCondition)
    (columns : List DrawingColumn) :
    filterDrawings (filterDrawings ds fs columns) fs columns = filterDrawings ds fs columns ∧
    List.Sublist (filterDrawings ds fs columns) ds := by
  unfold filterDrawings
  rcases fs with _ | ⟨f, fs⟩
  · simp
  · simp only [List.isEmpty_cons, Bool.false_eq_true, if_false]
    constructor
    · apply List.filter_eq_self.mpr
      intro d hd
      exact (List.mem_filter.mp hd).2
    · exact List.filter_sublist ds

/-- C10: on a resolvable column, NOT_EQUALS is exactly the negation of EQUALS
and IS_NOT_EMPTY exactly the negation of IS_EMPTY; with a dangling columnId
all four evaluate to true, so the complementarity holds only under the
resolvable-column precondition. -/
theorem C10_negation_pairs (d : Drawing) (cid : String) (v : Option String)
    (columns : List DrawingColumn) :
    (columns.find? (fun c => c.id == cid) ≠ none →
      (matchesFilter d ⟨cid, .NOT_EQUALS, v⟩ columns = !matchesFilter d ⟨cid, .EQUALS, v⟩ columns ∧
       matchesFilter d ⟨cid, .IS_NOT_EMPTY, v⟩ columns =
         !matchesFilter d ⟨cid, .IS_EMPTY, v⟩ columns)) ∧
    (columns.find? (fun c => c.id == cid) = none →
      matchesFilter d ⟨cid, .EQUALS, v⟩ columns = true ∧
      matchesFilter d ⟨cid, .NOT_EQUALS, v⟩ columns = true ∧
      matchesFilter d ⟨cid, .IS_EMPTY, v⟩ columns = true ∧
      matchesFilter d ⟨cid, .IS_NOT_EMPTY, v⟩ columns = true) := by
  constructor
  · intro hne
    rcases hfound : columns.find? (fun c => c.id == cid) with _ | column
    · exact absurd hfound hne
    · unfold matchesFilter
      simp only [hfound]
      exact ⟨rfl, notEmptyConj_eq_not_emptyDisj (d.get column.name)⟩
  · intro hnone
    unfold matchesFilter
    rw [hnone]
    exact ⟨rfl, rfl, rfl, rfl⟩

/-- C10 (witness): on a resolvable TEXT column, NOT_EQUALS and IS_NOT_EMPTY
are the boolean negations of EQUALS and IS_EMPTY. -/
theorem C10_witness :
    matchesFilter ⟨"d1", [("n", .str "x")]⟩ ⟨"c1", .NOT_EQUALS, some "x"⟩ [⟨"c1", "n", .text⟩]
      = !matchesFilter ⟨"d1", [("n", .str "x")]⟩ ⟨"c1", .EQUALS, some "x"⟩ [⟨"c1", "n", .text⟩] ∧
    matchesFilter ⟨"d1", [("n", .str "x")]⟩ ⟨"c1", .IS_NOT_EMPTY, some "x"⟩ [⟨"c1", "n", .text⟩]
      = !matchesFilter ⟨"d1", [("n", .str "x")]⟩ ⟨"c1", .IS_EMPTY, some "x"⟩
          [⟨"c1", "n", .text⟩] := by
  have h := (C10_negation_pairs ⟨"d1", [("n", .str "x")]⟩ "c1" (some "x")
    [⟨"c1", "n", .text⟩]).1 (by decide)
  exact h

end StatCards
